import Mathlib

/-! The emocrypt command-line front end (`src/cli/main.cpp`).

A shallow embedding of the three pieces of `main.cpp`:

* `get_password` (lines 21-45): the terminal is a finite sequence of bytes, consumed one
  byte per `tty.read`;
* the `decrypt` and `encrypt` operations (lines 47-156): functions from the engine/codec
  (`Core`), the surroundings of the process (`World`) and the two path arguments to an `Exit`
  holding the return value, the ordered list of effects performed and the contents of the
  local password buffers at the moment control leaves the function;
* `main` (lines 160-203): option handling and mode dispatch.

The `ec::` library (`common/*.h`) is outside the sources at hand, so the engine and the codec
are parameters of every definition and every theorem quantifies over them.
-/

namespace Emocrypt

/-- One octet. -/
abbrev Byte := Fin 256

/-- Modelled from the spec: the type `ec::byte_string` is declared in a header that is not among
the sources; from its use in `main.cpp` (`data`, `size`, `empty`, `append`) it is read as
`std::basic_string<unsigned char>`, here a list of octets. `std::string` is embedded the same
way. -/
abbrev byte_string := List Byte

/-- The character `'\n'`. -/
def NL : Byte := 10

/-- The overload `basic_string::append(size_type count, CharT ch)`: `count` copies of `ch` are added at
the end. -/
def append (s : byte_string) (count : Nat) (ch : Byte) : byte_string :=
  s ++ List.replicate count ch

/-- The member `basic_string::find(CharT ch)`: position of the first occurrence of `ch`, `none` standing
for `npos`. -/
def find : byte_string → Byte → Option Nat
  | [], _ => none
  | c :: s, ch => if c = ch then some 0 else (find s ch).map Nat.succ

/-- The effects `main.cpp` performs, one constructor per kind of call in the source. A `write`
is recorded when the call is made, whether or not it completes. -/
inductive Event where
  /-- The call `ec::fprint(std::cerr, text)`. -/
  | fprint (text : String)
  /-- The call `ec::fprintln(std::cerr, text...)`, the arguments concatenated. -/
  | fprintln (text : String)
  /-- The call `ec::println(text...)` of the version branch (standard output). -/
  | println (text : String)
  /-- The call `std::cout.flush()` of `get_password`. -/
  | flush_cout
  /-- The terminal opened: `ec::FD tty("/dev/tty", O_RDONLY)`. -/
  | tty_open
  /-- The call `term_echo.disable()`. -/
  | echo_disable
  /-- The call `fis.open(path, in|binary)`. -/
  | open_in (path : String)
  /-- The input stream consumed through `std::istreambuf_iterator` up to its end. -/
  | read_in
  /-- The call `ec::load_symbols()`. -/
  | load_symbols
  /-- The call `ec::decode(symbols, text)`. -/
  | decode
  /-- The call `ec::decrypt(data, size, password)`. -/
  | decrypt
  /-- The call `ec::encrypt(data, size, password)`. -/
  | encrypt
  /-- The call `ec::encode(rng, symbols, data, size, line_length)`. -/
  | encode
  /-- The call `fos.open(path, out|binary|trunc)`. -/
  | open_out (path : String)
  /-- The call `os->write(data, size)`; `path` is empty when `os` is `std::cout`. -/
  | write (path : String) (bytes : byte_string)
  deriving DecidableEq, Repr

/-- What `get_password` hands back: the password, the bytes the terminal has yet to deliver, and
the effects performed. -/
structure PasswordRead where
  password : byte_string
  tty : byte_string
  trace : List Event
  deriving DecidableEq, Repr

/-- The loop of lines 33-39. `ec::FD` is declared in a header that is not among the sources;
`tty.read(&ch, 1)` is read as taking the next byte of the terminal and returning a non-zero
count, or returning zero when the terminal has nothing more to deliver. The loop stops on a
zero count or on `'\n'` (which is consumed), and otherwise runs `password.append(1, ch)`. -/
def read_loop (password : byte_string) : byte_string → byte_string × byte_string
  | [] => (password, [])
  | ch :: tty => if ch = NL then (password, tty) else read_loop (append password 1 ch) tty

/-- Lines 21-45. -/
def get_password (prompt : String) (tty : byte_string) : PasswordRead :=
  let r := read_loop [] tty
  PasswordRead.mk r.1 r.2
    [Event.fprint prompt, Event.flush_cout, Event.tty_open, Event.echo_disable,
     Event.fprint "\n"]

/-- Line 42: the condition of `assert(password.find('\n') == std::string::npos)`. -/
def get_password_assertion (password : byte_string) : Bool :=
  find password NL == none


/-! ## The engine and the codec -/

/-- A generator `std::mt19937`, identified by the value it was seeded with. -/
structure mt19937 where
  seed : Nat
  deriving DecidableEq, Repr

/-- The operations of the `ec::` library used by `main.cpp`. Their code is not among the
sources, so they are arbitrary functions here. `ec::encrypt` draws its salt and nonce itself;
that hidden input is its first argument. -/
structure Core where
  /-- The type `ec::Symbols`. -/
  Symbols : Type
  /-- The function `ec::load_symbols()`. -/
  load_symbols : Symbols
  /-- The function `ec::encode(rng, symbols, data, size, line_length)`. -/
  encode : mt19937 → Symbols → byte_string → Int → byte_string
  /-- The function `ec::decode(symbols, text)`; the empty result signals failure. -/
  decode : Symbols → byte_string → byte_string
  /-- The function `ec::encrypt(data, size, password)`, after the randomness it consumes. -/
  encrypt : Nat → byte_string → byte_string → byte_string
  /-- The function `ec::decrypt(data, size, password)`; the empty result signals failure. -/
  decrypt : byte_string → byte_string → byte_string
  /-- The constant `ec::VERSION_MAJOR`. -/
  VERSION_MAJOR : Nat
  /-- The constant `ec::VERSION_MINOR`. -/
  VERSION_MINOR : Nat

/-! ## The surroundings of the process -/

/-- What reading an input stream to its end yields: all its bytes together with the state of
`bad()` afterwards (`some err` when set, `err` being `strerror(errno)`), or an exception
leaving the read. -/
inductive InStream where
  | data (bytes : byte_string) (bad : Option String)
  | raises
  deriving DecidableEq, Repr

/-- An output stream ready for `os->write`. The field tells, for the bytes handed to the
write, whether the write ends in an exception: on an opened file a failed write sets `badbit`,
which lines 90 and 151 arm with `fos.exceptions(std::ios::badbit)`. -/
structure OutStream where
  write_raises : byte_string → Bool

/-- The stream `std::cout`: its exception mask is never touched, so a write to it does not
raise. -/
def cout : OutStream :=
  OutStream.mk (fun _ => false)

/-- Everything outside the program that `main.cpp` consults. -/
structure World where
  /-- The bytes `/dev/tty` will deliver. -/
  tty : byte_string
  /-- The stream `std::cin`. -/
  stdin : InStream
  /-- Opening a file for reading: the stream, or the text of `strerror(errno)`. -/
  open_in : String → Except String InStream
  /-- Opening a file for writing with truncation: the stream, or the text of
  `strerror(errno)`. -/
  open_out : String → Except String OutStream
  /-- The value produced by `std::random_device`. -/
  rd : Nat
  /-- The randomness `ec::encrypt` draws. -/
  entropy : Nat

/-- How control leaves an operation. -/
inductive Outcome where
  | returned (value : Bool)
  | threw
  deriving DecidableEq, Repr

/-- The state in which an operation is left: its outcome, the effects performed in order, and
the contents of the local buffers `password` and `confirmation` (the latter only once it has
been created) at the moment control leaves the function body. -/
structure Exit where
  outcome : Outcome
  trace : List Event
  password : byte_string
  confirmation : Option byte_string
  deriving DecidableEq, Repr

/-- The text printed when a file cannot be opened (lines 60, 87, 118, 148). -/
def open_msg (path err : String) : String :=
  "open(\"" ++ path ++ "\"): " ++ err

/-- Lines 55-65 and 113-123: the stream `is`, which is `std::cin` unless `infile` is
non-empty. -/
def open_input (w : World) (infile : String) : Except String InStream :=
  if infile = "" then Except.ok w.stdin else w.open_in infile

/-- The effect of lines 57-58 and 115-116. -/
def open_input_trace (infile : String) : List Event :=
  if infile = "" then [] else [Event.open_in infile]

/-- Lines 82-92 and 143-153: the stream `os`, which is `std::cout` unless `outfile` is
non-empty. -/
def open_output (w : World) (outfile : String) : Except String OutStream :=
  if outfile = "" then Except.ok cout else w.open_out outfile

/-- The effect of lines 84-85 and 145-146. -/
def open_output_trace (outfile : String) : List Event :=
  if outfile = "" then [] else [Event.open_out outfile]

/-! ## The two operations -/

/-- Lines 47-97. On line 94 the call `plaintext.append('\n', 1)` resolves to
`append(size_type count, CharT ch)` with `count = '\n'` and `ch = 1`. The write of line 95
either completes or, on an opened file whose write fails, leaves the function by an
exception. -/
def decrypt (c : Core) (w : World) (infile outfile : String) : Exit :=
  let pw := get_password "Password: " w.tty
  let password := pw.password
  if password = [] then
    Exit.mk (Outcome.returned false)
      (pw.trace ++ [Event.fprintln "Password is required"]) password none
  else
    match open_input w infile with
    | Except.error err =>
      Exit.mk (Outcome.returned false)
        (pw.trace ++ open_input_trace infile ++ [Event.fprintln (open_msg infile err)])
        password none
    | Except.ok is =>
      let t1 := pw.trace ++ open_input_trace infile ++ [Event.load_symbols, Event.read_in]
      match is with
      | InStream.raises => Exit.mk Outcome.threw t1 password none
      | InStream.data encoded_ciphertext _ =>
        let symbols := c.load_symbols
        let ciphertext := c.decode symbols encoded_ciphertext
        let t2 := t1 ++ [Event.decode]
        if ciphertext = [] then
          Exit.mk (Outcome.returned false)
            (t2 ++ [Event.fprintln "Invalid ciphertext data"]) password none
        else
          let plaintext := c.decrypt ciphertext password
          let t3 := t2 ++ [Event.decrypt]
          if plaintext = [] then
            Exit.mk (Outcome.returned false)
              (t3 ++ [Event.fprintln "Decryption failed"]) password none
          else
            match open_output w outfile with
            | Except.error err =>
              Exit.mk (Outcome.returned false)
                (t3 ++ open_output_trace outfile ++ [Event.fprintln (open_msg outfile err)])
                password none
            | Except.ok os =>
              let plaintext := append plaintext NL.val 1
              let t4 := t3 ++ open_output_trace outfile ++ [Event.write outfile plaintext]
              if os.write_raises plaintext then
                Exit.mk Outcome.threw t4 password none
              else
                Exit.mk (Outcome.returned true) t4 password none

/-- Lines 99-156. The write of line 154 either completes or, on an opened file whose write
fails, leaves the function by an exception. -/
def encrypt (c : Core) (w : World) (infile outfile : String) (line_length : Int) : Exit :=
  let pw := get_password "Password: " w.tty
  let password := pw.password
  if password = [] then
    Exit.mk (Outcome.returned false)
      (pw.trace ++ [Event.fprintln "Password is required"]) password none
  else
    let cf := get_password "Confirmation: " pw.tty
    let confirmation := cf.password
    let t0 := pw.trace ++ cf.trace
    if confirmation ≠ password then
      Exit.mk (Outcome.returned false)
        (t0 ++ [Event.fprintln "Password and confirmation do not match"])
        password (some confirmation)
    else
      match open_input w infile with
      | Except.error err =>
        Exit.mk (Outcome.returned false)
          (t0 ++ open_input_trace infile ++ [Event.fprintln (open_msg infile err)])
          password (some confirmation)
      | Except.ok is =>
        let t1 := t0 ++ open_input_trace infile ++ [Event.read_in]
        match is with
        | InStream.raises => Exit.mk Outcome.threw t1 password (some confirmation)
        | InStream.data _ (some err) =>
          Exit.mk (Outcome.returned false)
            (t1 ++ [Event.fprintln ("read(): " ++ err)]) password (some confirmation)
        | InStream.data plaintext none =>
          let ciphertext := c.encrypt w.entropy plaintext password
          let t2 := t1 ++ [Event.encrypt]
          if ciphertext = [] then
            Exit.mk (Outcome.returned false)
              (t2 ++ [Event.fprintln "Encryption failed"]) password (some confirmation)
          else
            let rng := mt19937.mk w.rd
            let symbols := c.load_symbols
            let encoded_ciphertext := c.encode rng symbols ciphertext line_length
            let t3 := t2 ++ [Event.load_symbols, Event.encode]
            match open_output w outfile with
            | Except.error err =>
              Exit.mk (Outcome.returned false)
                (t3 ++ open_output_trace outfile ++ [Event.fprintln (open_msg outfile err)])
                password (some confirmation)
            | Except.ok os =>
              let t4 := t3 ++ open_output_trace outfile
                ++ [Event.write outfile encoded_ciphertext]
              if os.write_raises encoded_ciphertext then
                Exit.mk Outcome.threw t4 password (some confirmation)
              else
                Exit.mk (Outcome.returned true) t4 password (some confirmation)

/-! ## Reading a trace -/

/-- All bytes handed to `os->write`, in order. -/
def written : List Event → byte_string
  | [] => []
  | Event.write _ bytes :: t => bytes ++ written t
  | _ :: t => written t

/-- An effect on the output destination: the output file opened (and truncated), or bytes
written to the output file or to standard output. The call `std::cout.flush()` is not one:
it comes first in an operation, when nothing has been put into `std::cout`. -/
def Event.touches_output : Event → Bool
  | Event.open_out _ => true
  | Event.write _ _ => true
  | Event.println _ => true
  | _ => false

/-- An effect on the input: the input file opened or the input stream read. -/
def Event.touches_input : Event → Bool
  | Event.open_in _ => true
  | Event.read_in => true
  | _ => false

/-- A call into the engine or the codec. -/
def Event.calls_core : Event → Bool
  | Event.load_symbols => true
  | Event.decode => true
  | Event.decrypt => true
  | Event.encrypt => true
  | Event.encode => true
  | _ => false

/-- A buffer every byte of which is zero. -/
def zeroed (buf : byte_string) : Bool :=
  buf.all (fun b => b == 0)

/-! ## `main` -/

/-- The state of `ec::Options` once `opt.parse(argc, argv)` is done: for an option taking an
argument, `some a` when `isPresent` holds with `arg` returning `a`; for a flag, whether
`isPresent` holds. -/
structure Options where
  infile : Option String
  outfile : Option String
  decrypt : Bool
  encrypt : Bool
  line_length : Option String
  version : Bool
  help : Bool
  deriving DecidableEq, Repr

/-- The function `isspace` of the C locale. -/
def isspace (ch : Char) : Bool :=
  ch = ' ' || (9 ≤ ch.toNat && ch.toNat ≤ 13)

/-- The value of a run of decimal digits. -/
def digits_value (ds : List Char) : Nat :=
  ds.foldl (fun v d => 10 * v + (d.toNat - 48)) 0

/-- The function `std::stoi(str)` of the standard library, base 10: leading white space is
skipped, an optional sign and the longest run of digits are read, what follows is ignored.
The result is `none` when an exception is thrown: `std::invalid_argument` when there is no
digit, `std::out_of_range` when the value does not fit an `int`. -/
def stoi (str : String) : Option Int :=
  let s := str.toList.dropWhile isspace
  let negative := s.head? = some '-'
  let s := match s with
    | '-' :: r => r
    | '+' :: r => r
    | r => r
  let ds := s.takeWhile Char.isDigit
  if ds = [] then none
  else
    let v : Int := if negative then -(digits_value ds : Int) else (digits_value ds : Int)
    if -2147483648 ≤ v ∧ v ≤ 2147483647 then some v else none

/-- The operation `main` hands control to. -/
inductive Call where
  | decrypt (infile outfile : String)
  | encrypt (infile outfile : String) (line_length : Int)
  deriving DecidableEq, Repr

/-- How `main` ends: the exit status (`none` when an exception leaves `main`), the effects
performed, and the call made to one of the two operations, if any. -/
structure MainExit where
  status : Option Int
  trace : List Event
  call : Option Call
  deriving DecidableEq, Repr

/-- Lines 185-193. -/
def usage (argv0 : String) : List Event :=
  [Event.fprintln ("Usage: " ++ argv0 ++ " <options>"),
   Event.fprintln "Options:",
   Event.fprintln "  --infile,-i        Input file (default: stdin)",
   Event.fprintln "  --outfile,-o       Output file (default: stdout)",
   Event.fprintln "  --decrypt,-d       Decrypt",
   Event.fprintln "  --encrypt,-e       Encrypt (default)",
   Event.fprintln "  --line-length,-l   Line length (default: 80)",
   Event.fprintln "  --version,-v       Show program version",
   Event.fprintln "  --help,-h          Show help"]

/-- The conversion of `return !operation(...)`: status 0 for `true`, 1 for `false`. -/
def exit_status : Outcome → Option Int
  | Outcome.returned true => some 0
  | Outcome.returned false => some 1
  | Outcome.threw => none

/-- Lines 172-182: the locals `infile`, `outfile` and `line_length`; `none` when `std::stoi`
throws. -/
def main_locals (opt : Options) : Option (String × String × Int) :=
  let infile := match opt.infile with
    | some a => a
    | none => ""
  let outfile := match opt.outfile with
    | some a => a
    | none => ""
  let line_length : Option Int := match opt.line_length with
    | some a => stoi a
    | none => some 20
  line_length.map (fun l => (infile, outfile, l))

/-- Lines 160-203, from the parsed options on. -/
def main (c : Core) (w : World) (argv0 : String) (opt : Options) : MainExit :=
  match main_locals opt with
  | none => MainExit.mk none [] none
  | some (infile, outfile, line_length) =>
    if opt.help then
      MainExit.mk (some 0) (usage argv0) none
    else if opt.version then
      MainExit.mk (some 0)
        [Event.println (argv0 ++ " " ++ toString c.VERSION_MAJOR ++ "."
          ++ toString c.VERSION_MINOR)] none
    else if opt.decrypt then
      let e := decrypt c w infile outfile
      MainExit.mk (exit_status e.outcome) e.trace (some (Call.decrypt infile outfile))
    else
      let e := encrypt c w infile outfile line_length
      MainExit.mk (exit_status e.outcome) e.trace
        (some (Call.encrypt infile outfile line_length))

/-! ## A small engine and codec for concrete runs -/

/-- An engine and codec satisfying both round-trip laws: the blob is a version byte followed
by the plaintext, the text is the blob itself. -/
def toy : Core where
  Symbols := Unit
  load_symbols := ()
  encode := fun _ _ data _ => data
  decode := fun _ text => text
  encrypt := fun _ plaintext _ => (1 : Byte) :: plaintext
  decrypt := fun blob _ => blob.tail
  VERSION_MAJOR := 1
  VERSION_MINOR := 0

/-- A world with a terminal and a standard input in which no file can be opened. -/
def terminal_world (tty stdin : byte_string) : World :=
  World.mk tty (InStream.data stdin none)
    (fun _ => Except.error "No such file or directory")
    (fun _ => Except.error "Permission denied") 7 3

/-- The options of a command line without arguments. -/
def no_options : Options :=
  Options.mk none none false false none false false

/-! ## Facts about the reading loop -/

theorem read_loop_fst (acc tty : byte_string) :
    (read_loop acc tty).1 = acc ++ tty.takeWhile (fun ch => decide (ch ≠ NL)) := by
  induction tty generalizing acc with
  | nil => simp [read_loop]
  | cons ch tty ih =>
    by_cases h : ch = NL
    · simp [read_loop, h]
    · simp [read_loop, h, ih, append]

theorem find_eq_none (s : byte_string) (ch : Byte) : find s ch = none ↔ ch ∉ s := by
  induction s with
  | nil => simp [find]
  | cons c s ih =>
    by_cases h : c = ch
    · simp [find, h]
    · have h2 : ¬ ch = c := fun e => h e.symm
      simp [find, h, h2, ih]

theorem NL_not_mem_takeWhile (tty : byte_string) :
    NL ∉ tty.takeWhile (fun ch => decide (ch ≠ NL)) := by
  intro h
  have := List.mem_takeWhile_imp h
  simp at this

theorem takeWhile_then_NL (tty : byte_string) :
    ∃ rest, tty = tty.takeWhile (fun ch => decide (ch ≠ NL)) ++ rest
      ∧ (rest = [] ∨ rest.head? = some NL) := by
  induction tty with
  | nil => exact ⟨[], rfl, Or.inl rfl⟩
  | cons ch tty ih =>
    by_cases h : ch = NL
    · exact ⟨ch :: tty, by simp [h], Or.inr (by simp [h])⟩
    · obtain ⟨rest, h1, h2⟩ := ih
      refine ⟨rest, ?_, h2⟩
      simp only [List.takeWhile_cons, h, ne_eq, not_false_eq_true, decide_True, if_true,
        List.cons_append]
      rw [← h1]

/-- C4: for every byte sequence delivered by the terminal, `get_password` returns exactly the
bytes before the first newline: the longest newline-free initial segment, after which the
sequence either ends or continues with a newline. The result therefore holds no newline and
the condition of the assertion on line 42 is true. -/
theorem get_password_returns_first_line (prompt : String) (tty : byte_string) :
    (get_password prompt tty).password = tty.takeWhile (fun ch => decide (ch ≠ NL))
      ∧ (∃ rest, tty = (get_password prompt tty).password ++ rest
          ∧ (rest = [] ∨ rest.head? = some NL))
      ∧ NL ∉ (get_password prompt tty).password
      ∧ get_password_assertion (get_password prompt tty).password = true := by
  have h1 : (get_password prompt tty).password = tty.takeWhile (fun ch => decide (ch ≠ NL)) := by
    simp [get_password, read_loop_fst]
  have h2 : NL ∉ (get_password prompt tty).password := by
    rw [h1]; exact NL_not_mem_takeWhile tty
  refine ⟨h1, ?_, h2, ?_⟩
  · rw [h1]; exact takeWhile_then_NL tty
  · simp [get_password_assertion, find_eq_none, h2]

/-! ## The two operations, path by path -/

theorem decrypt_empty_password (c : Core) (w : World) (infile outfile : String)
    (h : (get_password "Password: " w.tty).password = []) :
    decrypt c w infile outfile
      = Exit.mk (Outcome.returned false)
          ((get_password "Password: " w.tty).trace ++ [Event.fprintln "Password is required"])
          [] none := by
  simp [decrypt, h]

theorem encrypt_empty_password (c : Core) (w : World) (infile outfile : String) (L : Int)
    (h : (get_password "Password: " w.tty).password = []) :
    encrypt c w infile outfile L
      = Exit.mk (Outcome.returned false)
          ((get_password "Password: " w.tty).trace ++ [Event.fprintln "Password is required"])
          [] none := by
  simp [encrypt, h]

theorem decrypt_true (c : Core) (w : World) (infile outfile : String)
    (h : (decrypt c w infile outfile).outcome = Outcome.returned true) :
    ∃ text bad os,
      (get_password "Password: " w.tty).password ≠ []
      ∧ open_input w infile = Except.ok (InStream.data text bad)
      ∧ c.decode c.load_symbols text ≠ []
      ∧ c.decrypt (c.decode c.load_symbols text) (get_password "Password: " w.tty).password ≠ []
      ∧ open_output w outfile = Except.ok os
      ∧ os.write_raises
          (c.decrypt (c.decode c.load_symbols text)
            (get_password "Password: " w.tty).password ++ List.replicate 10 1) = false
      ∧ (decrypt c w infile outfile).trace
          = (get_password "Password: " w.tty).trace ++ open_input_trace infile
            ++ [Event.load_symbols, Event.read_in, Event.decode, Event.decrypt]
            ++ open_output_trace outfile
            ++ [Event.write outfile
                 (c.decrypt (c.decode c.load_symbols text)
                    (get_password "Password: " w.tty).password ++ List.replicate 10 1)] := by
  by_cases hp : (get_password "Password: " w.tty).password = []
  · simp [decrypt, hp] at h
  · cases hin : open_input w infile with
    | error err => simp [decrypt, hp, hin] at h
    | ok is =>
      cases is with
      | raises => simp [decrypt, hp, hin] at h
      | data text bad =>
        by_cases hc : c.decode c.load_symbols text = []
        · simp [decrypt, hp, hin, hc] at h
        · by_cases hm : c.decrypt (c.decode c.load_symbols text)
              (get_password "Password: " w.tty).password = []
          · simp [decrypt, hp, hin, hc, hm] at h
          · cases hout : open_output w outfile with
            | error err => simp [decrypt, hp, hin, hc, hm, hout] at h
            | ok os =>
              have happ : append (c.decrypt (c.decode c.load_symbols text)
                  (get_password "Password: " w.tty).password) NL.val 1
                  = c.decrypt (c.decode c.load_symbols text)
                    (get_password "Password: " w.tty).password ++ List.replicate 10 1 := rfl
              by_cases hr : os.write_raises
                  (append (c.decrypt (c.decode c.load_symbols text)
                    (get_password "Password: " w.tty).password) NL.val 1) = true
              · simp [decrypt, hp, hin, hc, hm, hout, hr] at h
              · have hr' : os.write_raises
                    (append (c.decrypt (c.decode c.load_symbols text)
                      (get_password "Password: " w.tty).password) NL.val 1) = false := by
                  simpa using hr
                refine ⟨text, bad, os, hp, rfl, hc, hm, rfl, ?_, ?_⟩
                · rw [← happ]; exact hr'
                · rw [← happ]
                  simp [decrypt, hp, hin, hc, hm, hout, hr']

theorem encrypt_true (c : Core) (w : World) (infile outfile : String) (L : Int)
    (h : (encrypt c w infile outfile L).outcome = Outcome.returned true) :
    ∃ plaintext os,
      (get_password "Password: " w.tty).password ≠ []
      ∧ (get_password "Confirmation: " (get_password "Password: " w.tty).tty).password
          = (get_password "Password: " w.tty).password
      ∧ open_input w infile = Except.ok (InStream.data plaintext none)
      ∧ c.encrypt w.entropy plaintext (get_password "Password: " w.tty).password ≠ []
      ∧ open_output w outfile = Except.ok os
      ∧ os.write_raises
          (c.encode (mt19937.mk w.rd) c.load_symbols
            (c.encrypt w.entropy plaintext (get_password "Password: " w.tty).password) L)
          = false
      ∧ (encrypt c w infile outfile L).trace
          = (get_password "Password: " w.tty).trace
            ++ (get_password "Confirmation: " (get_password "Password: " w.tty).tty).trace
            ++ open_input_trace infile
            ++ [Event.read_in, Event.encrypt, Event.load_symbols, Event.encode]
            ++ open_output_trace outfile
            ++ [Event.write outfile
                 (c.encode (mt19937.mk w.rd) c.load_symbols
                    (c.encrypt w.entropy plaintext (get_password "Password: " w.tty).password)
                    L)] := by
  by_cases hp : (get_password "Password: " w.tty).password = []
  · simp [encrypt, hp] at h
  · by_cases hc : (get_password "Confirmation: " (get_password "Password: " w.tty).tty).password
        = (get_password "Password: " w.tty).password
    · cases hin : open_input w infile with
      | error err => simp [encrypt, hp, hc, hin] at h
      | ok is =>
        cases is with
        | raises => simp [encrypt, hp, hc, hin] at h
        | data plaintext bad =>
          cases bad with
          | some err => simp [encrypt, hp, hc, hin] at h
          | none =>
            by_cases hb : c.encrypt w.entropy plaintext
                (get_password "Password: " w.tty).password = []
            · simp [encrypt, hp, hc, hin, hb] at h
            · cases hout : open_output w outfile with
              | error err => simp [encrypt, hp, hc, hin, hb, hout] at h
              | ok os =>
                by_cases hr : os.write_raises
                    (c.encode (mt19937.mk w.rd) c.load_symbols
                      (c.encrypt w.entropy plaintext
                        (get_password "Password: " w.tty).password) L) = true
                · simp [encrypt, hp, hc, hin, hb, hout, hr] at h
                · have hr' : os.write_raises
                      (c.encode (mt19937.mk w.rd) c.load_symbols
                        (c.encrypt w.entropy plaintext
                          (get_password "Password: " w.tty).password) L) = false := by
                    simpa using hr
                  refine ⟨plaintext, os, hp, hc, rfl, hb, rfl, hr', ?_⟩
                  simp [encrypt, hp, hc, hin, hb, hout, hr']
    · simp [encrypt, hp, hc] at h

theorem written_append (t1 t2 : List Event) : written (t1 ++ t2) = written t1 ++ written t2 := by
  induction t1 with
  | nil => simp [written]
  | cons e t ih => cases e <;> simp [written, ih]

theorem written_get_password (prompt : String) (tty : byte_string) :
    written (get_password prompt tty).trace = [] := by
  simp [get_password, written]

theorem written_open_input_trace (infile : String) : written (open_input_trace infile) = [] := by
  unfold open_input_trace; split <;> simp [written]

theorem written_open_output_trace (outfile : String) :
    written (open_output_trace outfile) = [] := by
  unfold open_output_trace; split <;> simp [written]

theorem get_password_no_output (prompt : String) (tty : byte_string) :
    (get_password prompt tty).trace.filter Event.touches_output = [] := by
  simp [get_password, Event.touches_output]

theorem get_password_no_input (prompt : String) (tty : byte_string) :
    (get_password prompt tty).trace.filter Event.touches_input = [] := by
  simp [get_password, Event.touches_input]

theorem get_password_no_core (prompt : String) (tty : byte_string) :
    (get_password prompt tty).trace.filter Event.calls_core = [] := by
  simp [get_password, Event.calls_core]

theorem open_input_trace_no_output (infile : String) :
    (open_input_trace infile).filter Event.touches_output = [] := by
  unfold open_input_trace
  split <;> simp [Event.touches_output]

theorem open_output_trace_output (outfile : String) :
    (open_output_trace outfile).filter Event.touches_output = open_output_trace outfile := by
  unfold open_output_trace
  split <;> simp [Event.touches_output]

theorem decrypt_before_output (c : Core) (w : World) (infile outfile : String)
    (h : (get_password "Password: " w.tty).password = []
      ∨ (∃ err, open_input w infile = Except.error err)
      ∨ (∃ text bad, open_input w infile = Except.ok (InStream.data text bad)
          ∧ c.decode c.load_symbols text = [])
      ∨ (∃ text bad, open_input w infile = Except.ok (InStream.data text bad)
          ∧ c.decrypt (c.decode c.load_symbols text)
              (get_password "Password: " w.tty).password = [])) :
    (decrypt c w infile outfile).outcome = Outcome.returned false
      ∧ (decrypt c w infile outfile).trace.filter Event.touches_output = [] := by
  by_cases hp : (get_password "Password: " w.tty).password = []
  · rw [decrypt_empty_password c w infile outfile hp]
    simp [List.filter_append, get_password_no_output, Event.touches_output]
  · cases hin : open_input w infile with
    | error err =>
      simp [decrypt, hp, hin, List.filter_append, get_password_no_output,
        open_input_trace_no_output, Event.touches_output]
    | ok is =>
      cases is with
      | raises => simp [hp, hin] at h
      | data text bad =>
        by_cases hc : c.decode c.load_symbols text = []
        · simp [decrypt, hp, hin, hc, List.filter_append, get_password_no_output,
            open_input_trace_no_output, Event.touches_output]
        · have hm : c.decrypt (c.decode c.load_symbols text)
              (get_password "Password: " w.tty).password = [] := by
            simpa [hp, hin, hc] using h
          simp [decrypt, hp, hin, hc, hm, List.filter_append, get_password_no_output,
            open_input_trace_no_output, Event.touches_output]

theorem encrypt_before_output (c : Core) (w : World) (infile outfile : String) (L : Int)
    (h : (get_password "Password: " w.tty).password = []
      ∨ (get_password "Confirmation: " (get_password "Password: " w.tty).tty).password
          ≠ (get_password "Password: " w.tty).password
      ∨ (∃ err, open_input w infile = Except.error err)
      ∨ (∃ bytes err, open_input w infile = Except.ok (InStream.data bytes (some err)))
      ∨ (∃ bytes, open_input w infile = Except.ok (InStream.data bytes none)
          ∧ c.encrypt w.entropy bytes (get_password "Password: " w.tty).password = [])) :
    (encrypt c w infile outfile L).outcome = Outcome.returned false
      ∧ (encrypt c w infile outfile L).trace.filter Event.touches_output = [] := by
  by_cases hp : (get_password "Password: " w.tty).password = []
  · rw [encrypt_empty_password c w infile outfile L hp]
    simp [List.filter_append, get_password_no_output, Event.touches_output]
  · by_cases hc : (get_password "Confirmation: " (get_password "Password: " w.tty).tty).password
        = (get_password "Password: " w.tty).password
    · cases hin : open_input w infile with
      | error err =>
        simp [encrypt, hp, hc, hin, List.filter_append, get_password_no_output,
          open_input_trace_no_output, Event.touches_output]
      | ok is =>
        cases is with
        | raises => simp [hp, hc, hin] at h
        | data bytes bad =>
          cases bad with
          | some err =>
            simp [encrypt, hp, hc, hin, List.filter_append, get_password_no_output,
              open_input_trace_no_output, Event.touches_output]
          | none =>
            have hb : c.encrypt w.entropy bytes (get_password "Password: " w.tty).password
                = [] := by
              simpa [hp, hc, hin] using h
            simp [encrypt, hp, hc, hin, hb, List.filter_append, get_password_no_output,
              open_input_trace_no_output, Event.touches_output]
    · simp [encrypt, hp, hc, List.filter_append, get_password_no_output,
        Event.touches_output]


theorem zeroed_iff (buf : byte_string) : zeroed buf = true ↔ ∀ b ∈ buf, b = 0 := by
  simp [zeroed]

/-! ## The claims -/

/-- C1 (amended): for every non-empty password `p` and every non-empty plaintext `m`, if the
core satisfies both round-trip laws, then the decrypt operation run with password `p` on the
text the encrypt operation wrote for `(m, p)` reports neither "Invalid ciphertext data" nor
"Decryption failed", and it returns true exactly when its output can be opened and accepts the
write, which is always so when the output is standard output. -/
theorem cli_round_trip_nonempty (c : Core) (w1 w2 : World)
    (infile1 outfile1 infile2 outfile2 : String) (L : Int) (p m : byte_string)
    (bad : Option String)
    (h_codec : ∀ rng b l, c.decode c.load_symbols (c.encode rng c.load_symbols b l) = b)
    (h_engine : ∀ entropy m p, c.decrypt (c.encrypt entropy m p) p = m)
    (hp : p ≠ [])
    (hm : m ≠ [])
    (hp1 : (get_password "Password: " w1.tty).password = p)
    (hm1 : open_input w1 infile1 = Except.ok (InStream.data m none))
    (h_enc : (encrypt c w1 infile1 outfile1 L).outcome = Outcome.returned true)
    (hp2 : (get_password "Password: " w2.tty).password = p)
    (h_in2 : open_input w2 infile2
      = Except.ok (InStream.data (written (encrypt c w1 infile1 outfile1 L).trace) bad)) :
    Event.fprintln "Decryption failed" ∉ (decrypt c w2 infile2 outfile2).trace
      ∧ Event.fprintln "Invalid ciphertext data" ∉ (decrypt c w2 infile2 outfile2).trace
      ∧ ((decrypt c w2 infile2 outfile2).outcome = Outcome.returned true
          ↔ ∃ os, open_output w2 outfile2 = Except.ok os
              ∧ os.write_raises (m ++ List.replicate 10 1) = false)
      ∧ (outfile2 = "" → (decrypt c w2 infile2 outfile2).outcome = Outcome.returned true) := by
  obtain ⟨plaintext, _, _, _, hin, hblob, _, _, htrace⟩ :=
    encrypt_true c w1 infile1 outfile1 L h_enc
  rw [hm1] at hin
  have hpl : plaintext = m := by
    injection hin with hin
    injection hin with hin
    exact hin.symm
  subst hpl
  rw [hp1] at hblob htrace
  have hw : written (encrypt c w1 infile1 outfile1 L).trace
      = c.encode (mt19937.mk w1.rd) c.load_symbols (c.encrypt w1.entropy plaintext p) L := by
    rw [htrace]
    simp [written_append, written_get_password, written_open_input_trace,
      written_open_output_trace, written]
  rw [hw] at h_in2
  have happ : append plaintext NL.val 1 = plaintext ++ List.replicate 10 1 := rfl
  have hcases : ∀ r, open_output w2 outfile2 = r →
      Event.fprintln "Decryption failed" ∉ (decrypt c w2 infile2 outfile2).trace
      ∧ Event.fprintln "Invalid ciphertext data" ∉ (decrypt c w2 infile2 outfile2).trace
      ∧ ((decrypt c w2 infile2 outfile2).outcome = Outcome.returned true
          ↔ ∃ os, r = Except.ok os
              ∧ os.write_raises (plaintext ++ List.replicate 10 1) = false) := by
    intro r hr
    cases r with
    | error err =>
      have e1 : decrypt c w2 infile2 outfile2
          = Exit.mk (Outcome.returned false)
              ((get_password "Password: " w2.tty).trace ++ open_input_trace infile2
                ++ [Event.load_symbols, Event.read_in] ++ [Event.decode] ++ [Event.decrypt]
                ++ open_output_trace outfile2
                ++ [Event.fprintln (open_msg outfile2 err)])
              p none := by
        simp [decrypt, h_in2, hr, h_codec, h_engine, hblob, hm, hp2, hp]
      rw [e1]
      simp [get_password, open_input_trace, open_output_trace]
      refine ⟨?_, ?_⟩ <;>
      · intro h
        have h2 := congrArg (fun t => t.data.head?) h
        simp [open_msg, String.data_append] at h2
    | ok os =>
      by_cases hwr : os.write_raises (append plaintext NL.val 1) = true
      · have e1 : decrypt c w2 infile2 outfile2
            = Exit.mk Outcome.threw
                ((get_password "Password: " w2.tty).trace ++ open_input_trace infile2
                  ++ [Event.load_symbols, Event.read_in] ++ [Event.decode] ++ [Event.decrypt]
                  ++ open_output_trace outfile2
                  ++ [Event.write outfile2 (append plaintext NL.val 1)])
                p none := by
          simp [decrypt, h_in2, hr, h_codec, h_engine, hblob, hm, hp2, hp, hwr]
        rw [e1, ← happ]
        simp [get_password, open_input_trace, open_output_trace, hwr]
      · have hwr' : os.write_raises (append plaintext NL.val 1) = false := by simpa using hwr
        have e1 : decrypt c w2 infile2 outfile2
            = Exit.mk (Outcome.returned true)
                ((get_password "Password: " w2.tty).trace ++ open_input_trace infile2
                  ++ [Event.load_symbols, Event.read_in] ++ [Event.decode] ++ [Event.decrypt]
                  ++ open_output_trace outfile2
                  ++ [Event.write outfile2 (append plaintext NL.val 1)])
                p none := by
          simp [decrypt, h_in2, hr, h_codec, h_engine, hblob, hm, hp2, hp, hwr']
        rw [e1, ← happ]
        simp [get_password, open_input_trace, open_output_trace, hwr']
  obtain ⟨h1, h2, h3⟩ := hcases (open_output w2 outfile2) rfl
  refine ⟨h1, h2, h3, ?_⟩
  intro hout
  exact h3.2 ⟨cout, by simp [open_output, hout], rfl⟩

/-- C1 (witness): a run of the toy engine on the plaintext "hi" with password "pw", both
operations on standard input and output. -/
theorem cli_round_trip_nonempty_witness :
    (decrypt toy (terminal_world [112, 119, 10] [1, 104, 105]) "" "").outcome
        = Outcome.returned true
      ∧ Event.fprintln "Decryption failed"
        ∉ (decrypt toy (terminal_world [112, 119, 10] [1, 104, 105]) "" "").trace :=
  ⟨(cli_round_trip_nonempty toy (terminal_world [112, 119, 10, 112, 119, 10] [104, 105])
      (terminal_world [112, 119, 10] [1, 104, 105]) "" "" "" "" 20 [112, 119] [104, 105] none
      (fun _ _ _ => rfl) (fun _ _ _ => rfl) (by decide) (by decide) (by decide) rfl (by decide)
      (by decide) rfl).2.2.2 rfl,
   (cli_round_trip_nonempty toy (terminal_world [112, 119, 10, 112, 119, 10] [104, 105])
      (terminal_world [112, 119, 10] [1, 104, 105]) "" "" "" "" 20 [112, 119] [104, 105] none
      (fun _ _ _ => rfl) (fun _ _ _ => rfl) (by decide) (by decide) (by decide) rfl (by decide)
      (by decide) rfl).1⟩

/-- C1 (counterexample): two runs with the toy engine and codec, which satisfy both round-trip
laws, and password "pw". First, the encrypt operation run on the zero-length plaintext
returns true and writes the one-byte text `[1]`; the decrypt operation run on that text
reports "Decryption failed" and returns false. Second, the encrypt operation run on "hi"
returns true and writes `[1, 104, 105]`; the decrypt operation run on that text with an output
file that cannot be opened returns false. -/
theorem cli_round_trip_empty_plaintext_fails :
    (∀ rng b l, toy.decode toy.load_symbols (toy.encode rng toy.load_symbols b l) = b)
      ∧ (∀ entropy m p, toy.decrypt (toy.encrypt entropy m p) p = m)
      ∧ (get_password "Password: " (terminal_world [112, 119, 10, 112, 119, 10] []).tty).password
          = [112, 119]
      ∧ open_input (terminal_world [112, 119, 10, 112, 119, 10] []) ""
          = Except.ok (InStream.data [] none)
      ∧ (encrypt toy (terminal_world [112, 119, 10, 112, 119, 10] []) "" "" 20).outcome
          = Outcome.returned true
      ∧ written (encrypt toy (terminal_world [112, 119, 10, 112, 119, 10] []) "" "" 20).trace
          = [1]
      ∧ (get_password "Password: " (terminal_world [112, 119, 10] [1]).tty).password
          = [112, 119]
      ∧ open_input (terminal_world [112, 119, 10] [1]) "" = Except.ok (InStream.data [1] none)
      ∧ open_output (terminal_world [112, 119, 10] [1]) "" = Except.ok cout
      ∧ (decrypt toy (terminal_world [112, 119, 10] [1]) "" "").outcome
          = Outcome.returned false
      ∧ Event.fprintln "Decryption failed"
          ∈ (decrypt toy (terminal_world [112, 119, 10] [1]) "" "").trace
      ∧ open_input (terminal_world [112, 119, 10, 112, 119, 10] [104, 105]) ""
          = Except.ok (InStream.data [104, 105] none)
      ∧ (encrypt toy (terminal_world [112, 119, 10, 112, 119, 10] [104, 105])
          "" "" 20).outcome = Outcome.returned true
      ∧ written (encrypt toy (terminal_world [112, 119, 10, 112, 119, 10] [104, 105])
          "" "" 20).trace = [1, 104, 105]
      ∧ open_input (terminal_world [112, 119, 10] [1, 104, 105]) ""
          = Except.ok (InStream.data [1, 104, 105] none)
      ∧ open_output (terminal_world [112, 119, 10] [1, 104, 105]) "out"
          = Except.error "Permission denied"
      ∧ (decrypt toy (terminal_world [112, 119, 10] [1, 104, 105]) "" "out").outcome
          = Outcome.returned false :=
  ⟨fun _ _ _ => rfl, fun _ _ _ => rfl, by decide, rfl, by decide, by decide, by decide, rfl,
    rfl, by decide, by decide, rfl, by decide, by decide, rfl, rfl, by decide⟩

/-- C2: whenever the encrypt operation returns true, the password is non-empty and confirmed,
the input was read in full as `plaintext`, and the bytes written to the output are exactly
`encode(rng, load_symbols(), encrypt(plaintext, password), line_length)`: that single write
(after the opening of the output file, if one is named) is the only effect on the output. -/
theorem encrypt_writes_encoded_blob (c : Core) (w : World) (infile outfile : String) (L : Int)
    (h : (encrypt c w infile outfile L).outcome = Outcome.returned true) :
    ∃ plaintext,
      (get_password "Password: " w.tty).password ≠ []
      ∧ (get_password "Confirmation: " (get_password "Password: " w.tty).tty).password
          = (get_password "Password: " w.tty).password
      ∧ open_input w infile = Except.ok (InStream.data plaintext none)
      ∧ written (encrypt c w infile outfile L).trace
          = c.encode (mt19937.mk w.rd) c.load_symbols
              (c.encrypt w.entropy plaintext (get_password "Password: " w.tty).password) L
      ∧ (encrypt c w infile outfile L).trace.filter Event.touches_output
          = open_output_trace outfile
            ++ [Event.write outfile
                 (c.encode (mt19937.mk w.rd) c.load_symbols
                   (c.encrypt w.entropy plaintext (get_password "Password: " w.tty).password)
                   L)] := by
  obtain ⟨plaintext, _, hp, hc, hin, _, _, _, htrace⟩ := encrypt_true c w infile outfile L h
  refine ⟨plaintext, hp, hc, hin, ?_, ?_⟩
  · rw [htrace]
    simp [written_append, written_get_password, written_open_input_trace,
      written_open_output_trace, written]
  · rw [htrace]
    simp [List.filter_append, get_password_no_output, open_input_trace_no_output,
      open_output_trace_output, Event.touches_output]

/-- C2 (witness): the toy engine on the plaintext "hi" with password "pw", written to standard
output. -/
theorem encrypt_writes_encoded_blob_witness :
    (encrypt toy (terminal_world [112, 119, 10, 112, 119, 10] [104, 105]) "" "" 20).outcome
        = Outcome.returned true
      ∧ ∃ plaintext,
        (get_password "Password: "
            (terminal_world [112, 119, 10, 112, 119, 10] [104, 105]).tty).password ≠ []
        ∧ (get_password "Confirmation: " (get_password "Password: "
            (terminal_world [112, 119, 10, 112, 119, 10] [104, 105]).tty).tty).password
          = (get_password "Password: "
            (terminal_world [112, 119, 10, 112, 119, 10] [104, 105]).tty).password
        ∧ open_input (terminal_world [112, 119, 10, 112, 119, 10] [104, 105]) ""
          = Except.ok (InStream.data plaintext none)
        ∧ written
            (encrypt toy (terminal_world [112, 119, 10, 112, 119, 10] [104, 105]) "" "" 20).trace
          = toy.encode (mt19937.mk (terminal_world [112, 119, 10, 112, 119, 10] [104, 105]).rd)
              toy.load_symbols
              (toy.encrypt (terminal_world [112, 119, 10, 112, 119, 10] [104, 105]).entropy
                plaintext
                (get_password "Password: "
                  (terminal_world [112, 119, 10, 112, 119, 10] [104, 105]).tty).password) 20
        ∧ (encrypt toy (terminal_world [112, 119, 10, 112, 119, 10] [104, 105])
              "" "" 20).trace.filter Event.touches_output
          = open_output_trace ""
            ++ [Event.write ""
                 (toy.encode
                   (mt19937.mk (terminal_world [112, 119, 10, 112, 119, 10] [104, 105]).rd)
                   toy.load_symbols
                   (toy.encrypt (terminal_world [112, 119, 10, 112, 119, 10] [104, 105]).entropy
                     plaintext
                     (get_password "Password: "
                       (terminal_world [112, 119, 10, 112, 119, 10] [104, 105]).tty).password)
                   20)] :=
  ⟨by decide,
   encrypt_writes_encoded_blob toy (terminal_world [112, 119, 10, 112, 119, 10] [104, 105])
     "" "" 20 (by decide)⟩

/-- C3 (amended): on every exit path of the decrypt and encrypt operations (every return and the
propagated exception) the password buffer, and the confirmation buffer once it exists, are
left as read from the terminal: nothing overwrites them, so a buffer is all zeros only when
every byte entered was zero. -/
theorem password_buffers_left_as_read (c : Core) (w : World) (infile outfile : String)
    (L : Int) :
    (decrypt c w infile outfile).password = (get_password "Password: " w.tty).password
      ∧ (decrypt c w infile outfile).confirmation = none
      ∧ (encrypt c w infile outfile L).password = (get_password "Password: " w.tty).password
      ∧ (encrypt c w infile outfile L).confirmation
          = (if (get_password "Password: " w.tty).password = [] then none
             else some
              (get_password "Confirmation: " (get_password "Password: " w.tty).tty).password)
      ∧ (zeroed (decrypt c w infile outfile).password = true
          ↔ ∀ b ∈ (get_password "Password: " w.tty).password, b = 0)
      ∧ (zeroed (encrypt c w infile outfile L).password = true
          ↔ ∀ b ∈ (get_password "Password: " w.tty).password, b = 0) := by
  have hd : (decrypt c w infile outfile).password = (get_password "Password: " w.tty).password
      ∧ (decrypt c w infile outfile).confirmation = none := by
    unfold decrypt
    simp only []
    repeat' split
    all_goals exact ⟨rfl, rfl⟩
  have he : (encrypt c w infile outfile L).password = (get_password "Password: " w.tty).password
      ∧ (encrypt c w infile outfile L).confirmation
          = (if (get_password "Password: " w.tty).password = [] then none
             else some
              (get_password "Confirmation: " (get_password "Password: " w.tty).tty).password)
      := by
    by_cases hp : (get_password "Password: " w.tty).password = []
    · simp [encrypt, hp]
    · unfold encrypt
      simp only [hp, if_false]
      repeat' split
      all_goals exact ⟨rfl, rfl⟩
  refine ⟨hd.1, hd.2, he.1, he.2, ?_, ?_⟩
  · rw [hd.1]; exact zeroed_iff _
  · rw [he.1]; exact zeroed_iff _

/-- C3 (counterexample): after a successful decrypt run and after a successful encrypt run
with password "pw", the password buffer (and the confirmation buffer of encrypt) still holds
the bytes `[112, 119]` and is not zeroed. -/
theorem password_buffers_not_zeroed :
    (decrypt toy (terminal_world [112, 119, 10] [1, 104, 105]) "" "").outcome
        = Outcome.returned true
      ∧ (decrypt toy (terminal_world [112, 119, 10] [1, 104, 105]) "" "").password = [112, 119]
      ∧ zeroed (decrypt toy (terminal_world [112, 119, 10] [1, 104, 105]) "" "").password
          = false
      ∧ (encrypt toy (terminal_world [112, 119, 10, 112, 119, 10] [104, 105]) "" "" 20).outcome
          = Outcome.returned true
      ∧ (encrypt toy (terminal_world [112, 119, 10, 112, 119, 10] [104, 105])
          "" "" 20).password = [112, 119]
      ∧ (encrypt toy (terminal_world [112, 119, 10, 112, 119, 10] [104, 105])
          "" "" 20).confirmation = some [112, 119]
      ∧ zeroed (encrypt toy (terminal_world [112, 119, 10, 112, 119, 10] [104, 105])
          "" "" 20).password = false := by
  decide


/-- C5: when the password entered is empty, the decrypt and the encrypt operation both return
false right after the prompt: the only further effect is the message "Password is required",
and the list of effects holds no effect on the input, no call of the engine or the codec and
no effect on the output. -/
theorem empty_password_returns_at_once (c : Core) (w : World) (infile outfile : String)
    (L : Int) (h : (get_password "Password: " w.tty).password = []) :
    (decrypt c w infile outfile).outcome = Outcome.returned false
      ∧ (decrypt c w infile outfile).trace
          = [Event.fprint "Password: ", Event.flush_cout, Event.tty_open, Event.echo_disable,
             Event.fprint "\n", Event.fprintln "Password is required"]
      ∧ (decrypt c w infile outfile).trace.filter Event.touches_input = []
      ∧ (decrypt c w infile outfile).trace.filter Event.calls_core = []
      ∧ (decrypt c w infile outfile).trace.filter Event.touches_output = []
      ∧ (encrypt c w infile outfile L).outcome = Outcome.returned false
      ∧ (encrypt c w infile outfile L).trace
          = [Event.fprint "Password: ", Event.flush_cout, Event.tty_open, Event.echo_disable,
             Event.fprint "\n", Event.fprintln "Password is required"]
      ∧ (encrypt c w infile outfile L).trace.filter Event.touches_input = []
      ∧ (encrypt c w infile outfile L).trace.filter Event.calls_core = []
      ∧ (encrypt c w infile outfile L).trace.filter Event.touches_output = [] := by
  rw [decrypt_empty_password c w infile outfile h, encrypt_empty_password c w infile outfile L h]
  simp [get_password, Event.touches_input, Event.calls_core, Event.touches_output]

/-- C5 (witness): the user presses Enter at the prompt; files are named on both sides. -/
theorem empty_password_returns_at_once_witness :
    (get_password "Password: " (terminal_world [10, 112, 119, 10] [1, 104, 105]).tty).password
        = []
      ∧ (decrypt toy (terminal_world [10, 112, 119, 10] [1, 104, 105]) "in" "out").outcome
        = Outcome.returned false
      ∧ (encrypt toy (terminal_world [10, 112, 119, 10] [1, 104, 105]) "in" "out" 20).outcome
        = Outcome.returned false :=
  ⟨by decide,
   (empty_password_returns_at_once toy (terminal_world [10, 112, 119, 10] [1, 104, 105])
     "in" "out" 20 (by decide)).1,
   (empty_password_returns_at_once toy (terminal_world [10, 112, 119, 10] [1, 104, 105])
     "in" "out" 20 (by decide)).2.2.2.2.2.1⟩

/-- C6: when neither help, version nor decrypt is given, `main` calls the encrypt operation
with `line_length = 20` if the line-length option is absent, and with the integer `std::stoi`
reads from its argument if it is present; the effects of `main` are those of that call. -/
theorem main_line_length (c : Core) (w : World) (argv0 : String) (opt : Options)
    (h_help : opt.help = false) (h_version : opt.version = false)
    (h_decrypt : opt.decrypt = false) :
    (opt.line_length = none →
        (main c w argv0 opt).call
          = some (Call.encrypt (opt.infile.getD "") (opt.outfile.getD "") 20)
        ∧ (main c w argv0 opt).trace
          = (encrypt c w (opt.infile.getD "") (opt.outfile.getD "") 20).trace)
      ∧ (∀ a n, opt.line_length = some a → stoi a = some n →
        (main c w argv0 opt).call
          = some (Call.encrypt (opt.infile.getD "") (opt.outfile.getD "") n)
        ∧ (main c w argv0 opt).trace
          = (encrypt c w (opt.infile.getD "") (opt.outfile.getD "") n).trace) := by
  have hi : (match opt.infile with | some a => a | none => "") = opt.infile.getD "" := by
    cases opt.infile <;> rfl
  have ho : (match opt.outfile with | some a => a | none => "") = opt.outfile.getD "" := by
    cases opt.outfile <;> rfl
  constructor
  · intro hl
    simp [main, main_locals, hl, h_help, h_version, h_decrypt, hi, ho]
  · intro a n hl hn
    simp [main, main_locals, hl, hn, h_help, h_version, h_decrypt, hi, ho]

/-- C6 (witness): no option at all, and the single option `--line-length 64`. -/
theorem main_line_length_witness :
    (main toy (terminal_world [] []) "emocrypt" no_options).call
        = some (Call.encrypt "" "" 20)
      ∧ (main toy (terminal_world [] []) "emocrypt"
          (Options.mk none none false false (some "64") false false)).call
        = some (Call.encrypt "" "" 64) :=
  ⟨((main_line_length toy (terminal_world [] []) "emocrypt" no_options rfl rfl rfl).1 rfl).1,
   ((main_line_length toy (terminal_world [] []) "emocrypt"
      (Options.mk none none false false (some "64") false false) rfl rfl rfl).2
      "64" 64 rfl (by decide)).1⟩

/-- C7: when the line-length option is absent, `main` calls the encrypt operation with line
length 20 and has the effects and exit status of that call, not those of a call with the 80
that its usage text gives as the default. -/
theorem main_default_line_length_is_not_80 (c : Core) (w : World) (argv0 : String) :
    (main c w argv0 no_options).call = some (Call.encrypt "" "" 20)
      ∧ (main c w argv0 no_options).call ≠ some (Call.encrypt "" "" 80)
      ∧ Event.fprintln "  --line-length,-l   Line length (default: 80)" ∈ usage argv0
      ∧ (main c w argv0 no_options).trace = (encrypt c w "" "" 20).trace
      ∧ (main c w argv0 no_options).status = exit_status (encrypt c w "" "" 20).outcome := by
  refine ⟨rfl, ?_, ?_, rfl, rfl⟩
  · simp [main, main_locals, no_options]
  · simp [usage]

/-- C8 (amended): whenever the line-length option is absent or `std::stoi` accepts its
argument, `main` runs the encrypt operation (its effects and exit status are those of the
operation) exactly when none of help, version and decrypt is present, whatever the encrypt
flag; it runs the decrypt operation exactly when decrypt is present and help and version are
absent; and otherwise it runs neither, prints the usage or the version line and exits with
status 0. -/
theorem main_mode_dispatch (c : Core) (w : World) (argv0 : String) (opt : Options)
    (infile outfile : String) (L : Int)
    (h : main_locals opt = some (infile, outfile, L)) :
    (opt.help = false ∧ opt.version = false ∧ opt.decrypt = false →
        main c w argv0 opt
          = MainExit.mk (exit_status (encrypt c w infile outfile L).outcome)
              (encrypt c w infile outfile L).trace (some (Call.encrypt infile outfile L)))
      ∧ (opt.decrypt = true ∧ opt.help = false ∧ opt.version = false →
        main c w argv0 opt
          = MainExit.mk (exit_status (decrypt c w infile outfile).outcome)
              (decrypt c w infile outfile).trace (some (Call.decrypt infile outfile)))
      ∧ (opt.help = true → main c w argv0 opt = MainExit.mk (some 0) (usage argv0) none)
      ∧ (opt.help = false ∧ opt.version = true →
        main c w argv0 opt
          = MainExit.mk (some 0)
              [Event.println (argv0 ++ " " ++ toString c.VERSION_MAJOR ++ "."
                ++ toString c.VERSION_MINOR)] none)
      ∧ ((∃ i o l, (main c w argv0 opt).call = some (Call.encrypt i o l))
        ↔ opt.help = false ∧ opt.version = false ∧ opt.decrypt = false)
      ∧ ((∃ i o, (main c w argv0 opt).call = some (Call.decrypt i o))
        ↔ opt.decrypt = true ∧ opt.help = false ∧ opt.version = false)
      ∧ ((opt.help = true ∨ opt.version = true) →
        (main c w argv0 opt).call = none ∧ (main c w argv0 opt).status = some 0
          ∧ Event.tty_open ∉ (main c w argv0 opt).trace) := by
  cases hh : opt.help <;> cases hv : opt.version <;> cases hd : opt.decrypt <;>
    simp [main, h, hh, hv, hd, usage]

/-- C8 (witness): with the flags `--encrypt --decrypt` together, `main` runs the decrypt
operation, here on a text that decrypts to "hi", and exits with its status 0. -/
theorem main_mode_dispatch_witness :
    main toy (terminal_world [112, 119, 10] [1, 104, 105]) "emocrypt"
        (Options.mk none none true true none false false)
      = MainExit.mk
          (exit_status (decrypt toy (terminal_world [112, 119, 10] [1, 104, 105]) "" "").outcome)
          (decrypt toy (terminal_world [112, 119, 10] [1, 104, 105]) "" "").trace
          (some (Call.decrypt "" ""))
      ∧ exit_status (decrypt toy (terminal_world [112, 119, 10] [1, 104, 105]) "" "").outcome
        = some 0 :=
  ⟨(main_mode_dispatch toy (terminal_world [112, 119, 10] [1, 104, 105]) "emocrypt"
      (Options.mk none none true true none false false) "" "" 20 rfl).2.1 ⟨rfl, rfl, rfl⟩,
   by decide⟩

/-- C8 (counterexample): with the line-length argument "abc", which `std::stoi` rejects, an
exception leaves `main` before any flag is examined. With help present `main` neither prints
the usage nor exits with status 0, and with no flag at all it does not run the encrypt
operation: no effect is performed and no operation is called. -/
theorem main_bad_line_length_skips_dispatch :
    stoi "abc" = none
      ∧ main toy (terminal_world [112, 119, 10, 112, 119, 10] [104, 105]) "emocrypt"
          (Options.mk none none false false (some "abc") false true)
        = MainExit.mk none [] none
      ∧ main toy (terminal_world [112, 119, 10, 112, 119, 10] [104, 105]) "emocrypt"
          (Options.mk none none false false (some "abc") false false)
        = MainExit.mk none [] none
      ∧ (encrypt toy (terminal_world [112, 119, 10, 112, 119, 10] [104, 105])
          "" "" 20).trace ≠ [] := by
  decide

/-- C9: whenever the decrypt operation returns true with decrypted plaintext `m`, the bytes it
writes are `m` followed by ten bytes of value 1 (length of `m` plus 10), which is never `m`
followed by a single newline. -/
theorem decrypt_appends_ten_ones (c : Core) (w : World) (infile outfile : String)
    (h : (decrypt c w infile outfile).outcome = Outcome.returned true) :
    ∃ text bad,
      open_input w infile = Except.ok (InStream.data text bad)
      ∧ written (decrypt c w infile outfile).trace
          = c.decrypt (c.decode c.load_symbols text) (get_password "Password: " w.tty).password
            ++ List.replicate 10 1
      ∧ (written (decrypt c w infile outfile).trace).length
          = (c.decrypt (c.decode c.load_symbols text)
              (get_password "Password: " w.tty).password).length + 10
      ∧ written (decrypt c w infile outfile).trace
          ≠ c.decrypt (c.decode c.load_symbols text) (get_password "Password: " w.tty).password
            ++ [NL] := by
  obtain ⟨text, bad, _, _, hin, _, _, _, _, htrace⟩ := decrypt_true c w infile outfile h
  have hw : written (decrypt c w infile outfile).trace
      = c.decrypt (c.decode c.load_symbols text) (get_password "Password: " w.tty).password
        ++ List.replicate 10 1 := by
    rw [htrace]
    simp [written_append, written_get_password, written_open_input_trace,
      written_open_output_trace, written]
  refine ⟨text, bad, hin, hw, ?_, ?_⟩
  · rw [hw]; simp
  · rw [hw]
    intro hcontra
    have := congrArg List.length hcontra
    simp at this

/-- C9 (witness): the toy engine decrypting to "hi" writes `hi` followed by ten bytes of
value 1, twelve bytes in all, where "hi" and a newline would be three. -/
theorem decrypt_appends_ten_ones_witness :
    written (decrypt toy (terminal_world [112, 119, 10] [1, 104, 105]) "" "").trace
        = [104, 105, 1, 1, 1, 1, 1, 1, 1, 1, 1, 1]
      ∧ ∃ text bad,
        open_input (terminal_world [112, 119, 10] [1, 104, 105]) ""
          = Except.ok (InStream.data text bad)
        ∧ written (decrypt toy (terminal_world [112, 119, 10] [1, 104, 105]) "" "").trace
          = toy.decrypt (toy.decode toy.load_symbols text)
              (get_password "Password: " (terminal_world [112, 119, 10] [1, 104, 105]).tty).password
            ++ List.replicate 10 1
        ∧ (written (decrypt toy (terminal_world [112, 119, 10] [1, 104, 105]) "" "").trace).length
          = (toy.decrypt (toy.decode toy.load_symbols text)
              (get_password "Password: "
                (terminal_world [112, 119, 10] [1, 104, 105]).tty).password).length + 10
        ∧ written (decrypt toy (terminal_world [112, 119, 10] [1, 104, 105]) "" "").trace
          ≠ toy.decrypt (toy.decode toy.load_symbols text)
              (get_password "Password: " (terminal_world [112, 119, 10] [1, 104, 105]).tty).password
            ++ [NL] :=
  ⟨by decide,
   decrypt_appends_ten_ones toy (terminal_world [112, 119, 10] [1, 104, 105]) "" ""
     (by decide)⟩

/-- C10: whenever the decrypt operation fails because of an empty password, an input that
cannot be opened, a decode failure or a decryption failure, and whenever the encrypt operation
fails because of an empty password, a confirmation mismatch, an input that cannot be opened or
read, or an encryption failure, the operation returns false and its effects include none on
the output: the output file is not opened and nothing is written to it or to standard
output. -/
theorem failure_leaves_output_untouched (c : Core) (w : World) (infile outfile : String)
    (L : Int) :
    (((get_password "Password: " w.tty).password = []
        ∨ (∃ err, open_input w infile = Except.error err)
        ∨ (∃ text bad, open_input w infile = Except.ok (InStream.data text bad)
            ∧ c.decode c.load_symbols text = [])
        ∨ (∃ text bad, open_input w infile = Except.ok (InStream.data text bad)
            ∧ c.decrypt (c.decode c.load_symbols text)
                (get_password "Password: " w.tty).password = [])) →
      (decrypt c w infile outfile).outcome = Outcome.returned false
        ∧ (decrypt c w infile outfile).trace.filter Event.touches_output = [])
    ∧ (((get_password "Password: " w.tty).password = []
        ∨ (get_password "Confirmation: " (get_password "Password: " w.tty).tty).password
            ≠ (get_password "Password: " w.tty).password
        ∨ (∃ err, open_input w infile = Except.error err)
        ∨ (∃ bytes err, open_input w infile = Except.ok (InStream.data bytes (some err)))
        ∨ (∃ bytes, open_input w infile = Except.ok (InStream.data bytes none)
            ∧ c.encrypt w.entropy bytes (get_password "Password: " w.tty).password = [])) →
      (encrypt c w infile outfile L).outcome = Outcome.returned false
        ∧ (encrypt c w infile outfile L).trace.filter Event.touches_output = []) :=
  ⟨decrypt_before_output c w infile outfile, encrypt_before_output c w infile outfile L⟩

/-- C10 (witness): a wrong-looking blob makes decrypt fail at the decryption stage, and a
mistyped confirmation makes encrypt fail, both with an output file named. -/
theorem failure_leaves_output_untouched_witness :
    ((decrypt toy (terminal_world [112, 119, 10, 113, 10] [1]) "" "out").outcome
        = Outcome.returned false
      ∧ (decrypt toy (terminal_world [112, 119, 10, 113, 10] [1]) "" "out").trace.filter
          Event.touches_output = [])
    ∧ ((encrypt toy (terminal_world [112, 119, 10, 113, 10] [1]) "" "out" 20).outcome
        = Outcome.returned false
      ∧ (encrypt toy (terminal_world [112, 119, 10, 113, 10] [1]) "" "out" 20).trace.filter
          Event.touches_output = []) :=
  ⟨(failure_leaves_output_untouched toy (terminal_world [112, 119, 10, 113, 10] [1])
      "" "out" 20).1 (Or.inr (Or.inr (Or.inr ⟨[1], none, rfl, rfl⟩))),
   (failure_leaves_output_untouched toy (terminal_world [112, 119, 10, 113, 10] [1])
      "" "out" 20).2 (Or.inr (Or.inl (by decide)))⟩

end Emocrypt
